import Mathlib

/-!
A shallow embedding of `src/server.py`, a minimal MCP tool server with two
operations: a keyword classifier `is_portfolio_question` and a portfolio
lookup `get_portfolio` built on `_load_json` and `get_portfolio_by_key`.

Python strings are modelled as Lean `String`; Python's substring test
`kw in s` is contiguous-infix containment of the character lists; Python's
`str.lower()` is modelled as character-wise ASCII lowering (the keyword list
contains no cased characters, so nothing below depends on full Unicode
casing).  I/O (the file system, HTTP, the process environment) is modelled
as explicit function arguments, and the external `json` module as an
abstract parse function `String → Option Json`; raised exceptions become
`Except` errors.
-/

namespace Server

/-- Python's `kw in s` on strings: `kw` occurs contiguously inside `s`. -/
def pyInStr (kw s : String) : Bool := decide (kw.data <:+: s.data)

/-- Python's `s.startswith(pre)`. -/
def pyStartsWith (s pre : String) : Bool := pre.data.isPrefixOf s.data

/-- Python's `s.lower()`, character-wise (ASCII range). -/
def pyLower (s : String) : String := ⟨s.data.map Char.toLower⟩

/-- The static keyword list `portfolio_keywords` of `is_portfolio_question`
(`src/server.py` lines 44-47). -/
def portfolio_keywords : List String :=
  ["포트폴리오", "내 주식", "내 투자", "보유 주식", "투자 현황",
   "내 계좌", "내 자산", "투자 성과", "수익률", "보유 종목"]

/-- The local `question_lower = question.lower()` (line 49). -/
def question_lower (question : String) : String := pyLower question

/-- The local `is_related = any(keyword in question_lower for keyword in
portfolio_keywords)` (line 50). -/
def is_related (question : String) : Bool :=
  portfolio_keywords.any fun keyword => pyInStr keyword (question_lower question)

/-- The local `reason = ... if is_related else ...` (line 52). -/
def reason (question : String) : String :=
  if is_related question then "포트폴리오 관련 키워드가 포함되어 있습니다."
  else "포트폴리오 관련 키워드가 없습니다."

/-- The list comprehension `[kw for kw in portfolio_keywords if kw in
question_lower]` built for the `detected_keywords` field (line 57). -/
def detected_keywords (question : String) : List String :=
  portfolio_keywords.filter fun kw => pyInStr kw (question_lower question)

/-- A JSON-serialisable Python value as returned by the tools: the
classifier only ever stores a bool, a string, or a list of strings. -/
inductive PyVal where
  | bool (b : Bool)
  | str (s : String)
  | list (l : List String)
deriving DecidableEq, Repr

/-- `is_portfolio_question(question)` (lines 31-58): the returned dict,
modelled as the ordered association list of its keys and values. -/
def is_portfolio_question (question : String) : List (String × PyVal) :=
  [("is_portfolio_related", PyVal.bool (is_related question)),
   ("reason", PyVal.str (reason question)),
   ("detected_keywords", PyVal.list (detected_keywords question))]

/-- A JSON value, as produced by Python's `json` module. -/
inductive Json where
  | null
  | bool (b : Bool)
  | num (n : Int)
  | str (s : String)
  | arr (elems : List Json)
  | obj (kvs : List (String × Json))

/-- The error kinds the server can raise: `httpx.HTTPStatusError` from
`raise_for_status`, a network-level `httpx` failure, `FileNotFoundError`
from `open`, `json.JSONDecodeError`, `KeyError`, and `TypeError` from
applying `in` / `[]` to an unsupported value. -/
inductive PError where
  | HTTPError (status : Nat)
  | NetworkError (url : String)
  | FileNotFound (path : String)
  | ParseError
  | KeyError (msg : String)
  | TypeErr (msg : String)
deriving DecidableEq, Repr

/-- The external world `_load_json` reads from: a file system mapping paths
to contents, and an HTTP layer mapping a URL to the status and body of a
GET response (`none` = network failure). -/
structure World where
  files : String → Option String
  http : String → Option (Nat × String)

/-- The fixed `timeout=20.0` (seconds) passed to `httpx.Client` (line 15). -/
def httpTimeoutSeconds : Nat := 20

/-- The default `source` of `get_portfolio` (line 61). -/
def default_source : String := "https://jsonbin.io/689589fcf7e7a370d1f70914"

/-- `_load_json(source)` (lines 12-20): URL sources are fetched over HTTP
(`raise_for_status` raises for every non-2xx status, i.e. outside 200-299)
and the body parsed as JSON; any other source is read as a local file and
parsed as JSON.  `parse` stands for the external `json` module,
`none` meaning a `json.JSONDecodeError`. -/
def _load_json (parse : String → Option Json) (w : World) (source : String) :
    Except PError Json :=
  if pyStartsWith source "http://" || pyStartsWith source "https://" then
    match w.http source with
    | none => .error (.NetworkError source)
    | some (status, body) =>
      if 200 ≤ status ∧ status < 300 then
        match parse body with
        | some j => .ok j
        | none => .error .ParseError
      else .error (.HTTPError status)
  else
    match w.files source with
    | none => .error (.FileNotFound source)
    | some contents =>
      match parse contents with
      | some j => .ok j
      | none => .error .ParseError

/-- Lookup in a Python dict built from an association list; on duplicate
keys `json.loads` keeps the last binding, hence the `reverse`. -/
def dictGet (kvs : List (String × Json)) (key : String) : Option Json :=
  kvs.reverse.lookup key

/-- Python's `key in data` for a JSON value `data`: key membership on a
dict, element membership on a list, substring on a string, and a
`TypeError` otherwise. -/
def pyContains (data : Json) (key : String) : Except PError Bool :=
  match data with
  | .obj kvs => .ok (dictGet kvs key).isSome
  | .arr elems =>
    .ok (elems.any fun e => match e with | .str s => s == key | _ => false)
  | .str s => .ok (pyInStr key s)
  | _ => .error (.TypeErr "argument of type is not iterable")

/-- Python's `data[key]` for a string `key`: dict lookup, a `TypeError`
on every other JSON value. -/
def pyGetItem (data : Json) (key : String) : Except PError Json :=
  match data with
  | .obj kvs =>
    match dictGet kvs key with
    | some v => .ok v
    | none => .error (.KeyError key)
  | _ => .error (.TypeErr "indices must be str or int")

/-- `get_portfolio_by_key(access_key, source)` (lines 23-27): load the
source, raise `KeyError(f"존재하지 않는 access_key: {access_key}")` when the
key is absent, and return the stored value unchanged otherwise. -/
def get_portfolio_by_key (parse : String → Option Json) (w : World)
    (access_key : String) (source : String) : Except PError Json := do
  let data ← _load_json parse w source
  let c ← pyContains data access_key
  if c then pyGetItem data access_key
  else .error (.KeyError ("존재하지 않는 access_key: " ++ access_key))

/-- The access key `get_portfolio` ends up using (lines 83-85): Python's
`if not access_key:` treats both `None` and the empty string as absent and
falls back to `os.getenv("DEFAULT_ACCESS_KEY", "user123")`. -/
def resolvedAccessKey (env : String → Option String)
    (access_key : Option String) : String :=
  match access_key with
  | none => (env "DEFAULT_ACCESS_KEY").getD "user123"
  | some k => if k == "" then (env "DEFAULT_ACCESS_KEY").getD "user123" else k

/-- `get_portfolio(access_key, source)` (lines 60-86): resolve the access
key, then delegate to `get_portfolio_by_key`.  `env` models the process
environment read by `os.getenv`. -/
def get_portfolio (parse : String → Option Json) (w : World)
    (env : String → Option String) (access_key : Option String)
    (source : String) : Except PError Json :=
  get_portfolio_by_key parse w (resolvedAccessKey env access_key) source

/-! Concrete fixtures used by the closed instantiations below. -/

/-- Fixture: a concrete document text. -/
def sampleDoc : String := "sample portfolio document"

/-- Fixture: the JSON object `sampleDoc` stands for. -/
def sampleObj : List (String × Json) :=
  [("u1", Json.num 1), ("user123", Json.num 2), ("envkey", Json.num 3)]

/-- Fixture: a parse function recognising exactly `sampleDoc`. -/
def sampleParse : String → Option Json :=
  fun c => if c = sampleDoc then some (Json.obj sampleObj) else none

/-- Fixture: a world with one local file and three URLs. -/
def sampleWorld : World :=
  ⟨fun p => if p = "aa.json" then some sampleDoc else none,
   fun u =>
     if u = "https://example.com/pf" then some (200, sampleDoc)
     else if u = "https://example.com/missing" then some (404, "gone")
     else if u = "https://example.com/bad" then some (200, "not a json document")
     else none⟩

/-- Fixture: an environment with `DEFAULT_ACCESS_KEY` set. -/
def envSet : String → Option String :=
  fun v => if v = "DEFAULT_ACCESS_KEY" then some "envkey" else none

/-- Helper: `List.lookup` finds the unique binding of a key when the keys
are nodup, wherever in the list the binding sits. -/
theorem lookup_eq_some_of_nodup {β : Type} (l : List (String × β)) (k : String) (v : β)
    (hnodup : (l.map Prod.fst).Nodup) (hmem : (k, v) ∈ l) : l.lookup k = some v := by
  induction l with
  | nil => simp at hmem
  | cons a t ih =>
    obtain ⟨ka, va⟩ := a
    simp only [List.map_cons, List.nodup_cons] at hnodup
    rcases List.mem_cons.1 hmem with h | h
    · obtain ⟨rfl, rfl⟩ : k = ka ∧ v = va := by simpa using h
      simp [List.lookup]
    · have hk : (k == ka) = false := by
        refine beq_eq_false_iff_ne.2 fun hkk => ?_
        subst hkk
        exact hnodup.1 (List.mem_map.2 ⟨(k, v), h, rfl⟩)
      simpa [List.lookup, hk] using ih hnodup.2 h

/-- Helper: `dictGet` finds the unique binding when the keys are nodup. -/
theorem dictGet_eq_some_of_nodup (kvs : List (String × Json)) (k : String) (v : Json)
    (hnodup : (kvs.map Prod.fst).Nodup) (hmem : (k, v) ∈ kvs) :
    dictGet kvs k = some v := by
  unfold dictGet
  apply lookup_eq_some_of_nodup
  · rw [List.map_reverse]
    exact List.nodup_reverse.2 hnodup
  · exact List.mem_reverse.2 hmem

/-- C1: `is_related` is true iff some keyword of the fixed list occurs as a
contiguous substring of the lower-cased question, and the detected-keyword
list is non-empty exactly when `is_related` is true. -/
theorem classify_is_related_iff (question : String) :
    (is_related question = true ↔
      ∃ kw ∈ portfolio_keywords, kw.data <:+: (question_lower question).data) ∧
    (detected_keywords question ≠ [] ↔ is_related question = true) := by
  constructor
  · simp [is_related, List.any_eq_true, pyInStr]
  · simp only [detected_keywords, ne_eq, List.filter_eq_nil_iff, is_related,
      List.any_eq_true, not_forall]
    constructor
    · rintro ⟨kw, hkw, hp⟩
      exact ⟨kw, hkw, by simpa using hp⟩
    · rintro ⟨kw, hkw, hp⟩
      exact ⟨kw, hkw, by simpa using hp⟩

/-- C5: the detected keywords are exactly the keywords of the fixed list
occurring in the lowered question, and (being a sublist of the fixed list)
they keep that list's relative order. -/
theorem classify_detected_exact (question : String) :
    List.Sublist (detected_keywords question) portfolio_keywords ∧
    ∀ kw, kw ∈ detected_keywords question ↔
      kw ∈ portfolio_keywords ∧ kw.data <:+: (question_lower question).data := by
  refine ⟨List.filter_sublist _, fun kw => ?_⟩
  simp [detected_keywords, List.mem_filter, pyInStr]

/-- C8: `reason` is always one of two fixed strings, the first one exactly
when `is_related` is true, and the two strings differ. -/
theorem classify_reason_cases (question : String) :
    (reason question = "포트폴리오 관련 키워드가 포함되어 있습니다." ∨
     reason question = "포트폴리오 관련 키워드가 없습니다.") ∧
    (reason question = "포트폴리오 관련 키워드가 포함되어 있습니다." ↔
      is_related question = true) ∧
    "포트폴리오 관련 키워드가 포함되어 있습니다." ≠ "포트폴리오 관련 키워드가 없습니다." := by
  unfold reason
  rcases h : is_related question with _ | _ <;> simp [h]

/-- C9: the classifier is a pure total function of the question text — its
result is already determined by the lowered text, so two calls on equal
input (or even input equal after lowering) return identical results; by
construction it is total and raises no error. -/
theorem classify_deterministic (q₁ q₂ : String)
    (h : question_lower q₁ = question_lower q₂) :
    is_portfolio_question q₁ = is_portfolio_question q₂ := by
  simp only [is_portfolio_question, is_related, reason, detected_keywords, h]

/-- C9 instantiated: lowering identifies "PORTFOLIO 수익률" with
"portfolio 수익률" and the classifier returns identical results there. -/
theorem classify_deterministic_witness :
    question_lower "PORTFOLIO 수익률" = question_lower "portfolio 수익률" ∧
    is_portfolio_question "PORTFOLIO 수익률" = is_portfolio_question "portfolio 수익률" :=
  ⟨by decide, classify_deterministic _ _ (by decide)⟩

/-- C6 as stated is false: the returned dict's keys are
`is_portfolio_related`, `reason`, `detected_keywords` — not
`is_related`, `reason`, `matched_keywords`. -/
theorem classify_field_names_counterexample :
    (is_portfolio_question "").map Prod.fst ≠ ["is_related", "reason", "matched_keywords"] := by
  decide

/-- C6 amended: for every question, the returned dict has exactly three
fields, named `is_portfolio_related` (a bool), `reason` (a string) and
`detected_keywords` (a list of strings), in that order. -/
theorem classify_fields_amended (question : String) :
    ∃ b r l, is_portfolio_question question =
      [("is_portfolio_related", PyVal.bool b), ("reason", PyVal.str r),
       ("detected_keywords", PyVal.list l)] :=
  ⟨_, _, _, rfl⟩

/-- C2: once the source loads to a JSON object, an absent access key makes
`get_portfolio_by_key` fail with a `KeyError` whose message names that key,
and a present key returns exactly the stored value, untransformed. -/
theorem lookup_key_semantics (parse : String → Option Json) (w : World)
    (key source : String) (kvs : List (String × Json))
    (hload : _load_json parse w source = .ok (.obj kvs)) :
    (dictGet kvs key = none →
      get_portfolio_by_key parse w key source =
        .error (.KeyError ("존재하지 않는 access_key: " ++ key))) ∧
    ∀ v, dictGet kvs key = some v →
      get_portfolio_by_key parse w key source = .ok v := by
  constructor
  · intro hnone
    simp [get_portfolio_by_key, hload, pyContains, hnone, Bind.bind, Except.bind]
  · intro v hv
    simp [get_portfolio_by_key, hload, pyContains, pyGetItem, hv, Bind.bind, Except.bind]

/-- C2 instantiated on the fixture store: `u1` is found with its value,
`missing` raises the `KeyError` naming it. -/
theorem lookup_key_semantics_witness :
    _load_json sampleParse sampleWorld "aa.json" = .ok (.obj sampleObj) ∧
    dictGet sampleObj "u1" = some (.num 1) ∧
    get_portfolio_by_key sampleParse sampleWorld "u1" "aa.json" = .ok (.num 1) ∧
    dictGet sampleObj "missing" = none ∧
    get_portfolio_by_key sampleParse sampleWorld "missing" "aa.json" =
      .error (.KeyError "존재하지 않는 access_key: missing") := by
  refine ⟨rfl, rfl, ?_, rfl, ?_⟩
  · exact (lookup_key_semantics sampleParse sampleWorld "u1" "aa.json" sampleObj rfl).2
      (.num 1) rfl
  · exact (lookup_key_semantics sampleParse sampleWorld "missing" "aa.json" sampleObj rfl).1 rfl

/-- C3: round trip — if a document parses to a top-level object with nodup
keys, then loading it from a file and looking up any of its keys returns
exactly the stored value. -/
theorem load_lookup_roundtrip (parse : String → Option Json)
    (doc path key : String) (kvs : List (String × Json)) (v : Json)
    (hpath : (pyStartsWith path "http://" || pyStartsWith path "https://") = false)
    (hparse : parse doc = some (.obj kvs))
    (hnodup : (kvs.map Prod.fst).Nodup)
    (hmem : (key, v) ∈ kvs) :
    get_portfolio_by_key parse
      ⟨fun p => if p = path then some doc else none, fun _ => none⟩ key path = .ok v := by
  have hget := dictGet_eq_some_of_nodup kvs key v hnodup hmem
  have hload : _load_json parse
      ⟨fun p => if p = path then some doc else none, fun _ => none⟩ path =
      .ok (.obj kvs) := by
    simp [_load_json, hpath, hparse]
  simp [get_portfolio_by_key, hload, pyContains, pyGetItem, hget, Bind.bind, Except.bind]

/-- C3 instantiated on the fixture document and its key `u1`. -/
theorem load_lookup_roundtrip_witness :
    sampleParse sampleDoc = some (.obj sampleObj) ∧
    ("u1", Json.num 1) ∈ sampleObj ∧
    get_portfolio_by_key sampleParse
      ⟨fun p => if p = "aa.json" then some sampleDoc else none, fun _ => none⟩
      "u1" "aa.json" = .ok (.num 1) := by
  refine ⟨rfl, by simp [sampleObj], ?_⟩
  exact load_lookup_roundtrip sampleParse sampleDoc "aa.json" "u1" sampleObj (.num 1)
    (by decide) rfl (by decide) (by simp [sampleObj])

/-- C4: `_load_json` fetches HTTP(S) sources over GET (modelled by
`World.http`, with the fixed 20-second client timeout) and fails with
`HTTPError status` on every non-2xx response; any other source is read as
a local file, absent files failing with `FileNotFound`; in either branch
unparseable content fails with `ParseError`, and every error propagates
uncaught through `get_portfolio_by_key`. -/
theorem load_json_branches (parse : String → Option Json) (w : World) (source : String) :
    ((pyStartsWith source "http://" || pyStartsWith source "https://") = true →
      ∀ status body, w.http source = some (status, body) →
        ((¬(200 ≤ status ∧ status < 300) →
            _load_json parse w source = .error (.HTTPError status)) ∧
         (200 ≤ status → status < 300 → parse body = none →
            _load_json parse w source = .error .ParseError) ∧
         (∀ j, 200 ≤ status → status < 300 → parse body = some j →
            _load_json parse w source = .ok j))) ∧
    ((pyStartsWith source "http://" || pyStartsWith source "https://") = false →
      ((w.files source = none →
          _load_json parse w source = .error (.FileNotFound source)) ∧
       (∀ contents, w.files source = some contents → parse contents = none →
          _load_json parse w source = .error .ParseError) ∧
       (∀ contents j, w.files source = some contents → parse contents = some j →
          _load_json parse w source = .ok j))) ∧
    (∀ e key, _load_json parse w source = .error e →
      get_portfolio_by_key parse w key source = .error e) ∧
    httpTimeoutSeconds = 20 := by
  refine ⟨?_, ?_, ?_, rfl⟩
  · intro hurl status body hhttp
    refine ⟨?_, ?_, ?_⟩
    · intro hst
      simp [_load_json, hurl, hhttp, hst]
    · intro h1 h2 hp
      simp [_load_json, hurl, hhttp, h1, h2, hp]
    · intro j h1 h2 hp
      simp [_load_json, hurl, hhttp, h1, h2, hp]
  · intro hurl
    refine ⟨?_, ?_, ?_⟩
    · intro hf
      simp [_load_json, hurl, hf]
    · intro c hf hp
      simp [_load_json, hurl, hf, hp]
    · intro c j hf hp
      simp [_load_json, hurl, hf, hp]
  · intro e key hload
    simp [get_portfolio_by_key, hload, Bind.bind, Except.bind]

/-- C4 instantiated: a 404 URL gives `HTTPError 404`, a missing file gives
`FileNotFound`, an unparseable 200 body gives `ParseError`, and the
`FileNotFound` propagates through `get_portfolio_by_key`. -/
theorem load_json_branches_witness :
    sampleWorld.http "https://example.com/missing" = some (404, "gone") ∧
    _load_json sampleParse sampleWorld "https://example.com/missing" =
      .error (.HTTPError 404) ∧
    sampleWorld.files "nosuch.json" = none ∧
    _load_json sampleParse sampleWorld "nosuch.json" =
      .error (.FileNotFound "nosuch.json") ∧
    sampleParse "not a json document" = none ∧
    _load_json sampleParse sampleWorld "https://example.com/bad" = .error .ParseError ∧
    get_portfolio_by_key sampleParse sampleWorld "u1" "nosuch.json" =
      .error (.FileNotFound "nosuch.json") := by
  refine ⟨rfl, ?_, rfl, ?_, rfl, ?_, ?_⟩
  · exact ((load_json_branches sampleParse sampleWorld
      "https://example.com/missing").1 (by decide) 404 "gone" rfl).1 (by decide)
  · exact ((load_json_branches sampleParse sampleWorld "nosuch.json").2.1 (by decide)).1 rfl
  · exact ((load_json_branches sampleParse sampleWorld
      "https://example.com/bad").1 (by decide) 200 "not a json document" rfl).2.1
      (by decide) (by decide) rfl
  · exact (load_json_branches sampleParse sampleWorld "nosuch.json").2.2.1
      (.FileNotFound "nosuch.json") "u1" rfl

/-- C7 amended: with no caller key `get_portfolio` looks up with the
`DEFAULT_ACCESS_KEY` environment value when set and with `user123`
otherwise, and a caller-supplied NON-EMPTY key is used as given (the empty
string instead falls back like an absent one, see the counterexample). -/
theorem get_portfolio_access_key_resolution (parse : String → Option Json) (w : World)
    (env : String → Option String) (source : String) :
    (get_portfolio parse w env none source =
      get_portfolio_by_key parse w ((env "DEFAULT_ACCESS_KEY").getD "user123") source) ∧
    (∀ v, env "DEFAULT_ACCESS_KEY" = some v → resolvedAccessKey env none = v) ∧
    (env "DEFAULT_ACCESS_KEY" = none → resolvedAccessKey env none = "user123") ∧
    (∀ k, k ≠ "" → get_portfolio parse w env (some k) source =
      get_portfolio_by_key parse w k source) := by
  refine ⟨rfl, ?_, ?_, ?_⟩
  · intro v hv
    simp [resolvedAccessKey, hv]
  · intro hv
    simp [resolvedAccessKey, hv]
  · intro k hk
    simp [get_portfolio, resolvedAccessKey, hk]

/-- C7 instantiated: with `DEFAULT_ACCESS_KEY=envkey` the default key is
`envkey`, with an empty environment it is `user123`, and the supplied key
`u1` is used as given. -/
theorem get_portfolio_access_key_resolution_witness :
    envSet "DEFAULT_ACCESS_KEY" = some "envkey" ∧
    resolvedAccessKey envSet none = "envkey" ∧
    (fun _ => (none : Option String)) "DEFAULT_ACCESS_KEY" = none ∧
    resolvedAccessKey (fun _ => none) none = "user123" ∧
    get_portfolio sampleParse sampleWorld envSet (some "u1") "aa.json" =
      get_portfolio_by_key sampleParse sampleWorld "u1" "aa.json" := by
  refine ⟨rfl, ?_, rfl, ?_, ?_⟩
  · exact (get_portfolio_access_key_resolution sampleParse sampleWorld
      envSet "aa.json").2.1 "envkey" rfl
  · exact (get_portfolio_access_key_resolution sampleParse sampleWorld
      (fun _ => none) "aa.json").2.2.1 rfl
  · exact (get_portfolio_access_key_resolution sampleParse sampleWorld
      envSet "aa.json").2.2.2 "u1" (by decide)

/-- C7 as stated is false: a caller-supplied EMPTY access key is not used
as given — `if not access_key:` replaces it by the environment default, so
the lookup runs with `envkey` and not with `""`. -/
theorem get_portfolio_key_as_given_counterexample :
    resolvedAccessKey envSet (some "") = "envkey" ∧
    "envkey" ≠ "" ∧
    get_portfolio sampleParse sampleWorld envSet (some "") "aa.json" = .ok (.num 3) ∧
    get_portfolio_by_key sampleParse sampleWorld "" "aa.json" =
      .error (.KeyError "존재하지 않는 access_key: ") := by
  refine ⟨by decide, by decide, rfl, rfl⟩

/-- C10: an empty-string access key behaves exactly like an absent one —
`get_portfolio` resolves it to the `DEFAULT_ACCESS_KEY` environment value
or the `user123` fallback. -/
theorem get_portfolio_empty_key_default (parse : String → Option Json) (w : World)
    (env : String → Option String) (source : String) :
    get_portfolio parse w env (some "") source = get_portfolio parse w env none source ∧
    resolvedAccessKey env (some "") = (env "DEFAULT_ACCESS_KEY").getD "user123" :=
  ⟨rfl, rfl⟩

end Server
